import Mathlib

/-!
Shallow embedding of `src/app/file_utils.py` (file-upload parsing,
validation and normalization for the supervisor integration agent).

Python strings are modelled as Lean `String` (sequences of Unicode code
points, matching Python's `len`/indexing semantics), dictionaries with the
three relevant keys as a structure of `Option String` fields (a `none`
field models an absent key), and Python exceptions as `Except PyErr`.
Recursive scanning functions take an explicit fuel argument that is always
instantiated with at least the length of the scanned list, so they are
total and compute by `rfl`/`decide`.
-/

/-- Python exception classes relevant to this module: `ValueError` and
`IndexError` are caught by the marker-extraction loop, `re.error`
(raised by `re.sub` on a bad replacement template) is not. -/
inductive PyErr where
  | valueError
  | indexError
  | reError
deriving DecidableEq

/-- A Python dict holding a file upload. The module only ever reads the
keys `base64_data`, `filename` and `mime_type`; a `none` field models a
dict in which that key is absent. -/
structure FileUpload where
  base64_data : Option String
  filename : Option String
  mime_type : Option String
deriving DecidableEq

/-- `MAX_FILE_SIZE_BASE64 = 25 * 1024 * 1024` from the source. -/
def MAX_FILE_SIZE_BASE64 : Nat := 25 * 1024 * 1024

/-- `SUPPORTED_MIME_TYPES` from the source (advisory only; never used to
reject an upload). -/
def SUPPORTED_MIME_TYPES : List String :=
  [ "text/plain"
  , "text/markdown"
  , "text/x-markdown"
  , "application/pdf"
  , "application/vnd.openxmlformats-officedocument.wordprocessingml.document" ]

/-! ### Python `sep in s`, `s.split(sep)` on character lists

`containsSub sep l` models Python `sep in s` for a non-empty separator;
`pySplit` models `s.split(sep)` (split on each leftmost non-overlapping
occurrence of `sep`). `upToFirstSub`/`afterFirstSub` are the
specification-side decomposition used to characterise `split(...)[1]`. -/

/-- Python `sep in s` (non-empty `sep`). -/
def containsSub (sep : List Char) : List Char → Bool
  | [] => false
  | c :: cs => sep.isPrefixOf (c :: cs) || containsSub sep cs

/-- Everything strictly before the first occurrence of `sep` (the whole
list when `sep` does not occur). Specification-side helper. -/
def upToFirstSub (sep : List Char) : List Char → List Char
  | [] => []
  | c :: cs => if sep.isPrefixOf (c :: cs) then [] else c :: upToFirstSub sep cs

/-- Everything strictly after the first occurrence of `sep` (empty when
`sep` does not occur). Specification-side helper. -/
def afterFirstSub (sep : List Char) : List Char → List Char
  | [] => []
  | c :: cs =>
    if sep.isPrefixOf (c :: cs) then (c :: cs).drop sep.length
    else afterFirstSub sep cs

/-- Python `s.split(sep)` on character lists, fuel-driven (the fuel is
always instantiated with at least `l.length`, which suffices because each
step consumes at least one character). -/
def pySplit (sep : List Char) : Nat → List Char → List (List Char)
  | _, [] => [[]]
  | 0, l => [l]
  | fuel + 1, c :: cs =>
    if sep.isPrefixOf (c :: cs) then
      [] :: pySplit sep fuel ((c :: cs).drop sep.length)
    else
      match pySplit sep fuel cs with
      | [] => [[c]]
      | p :: ps => (c :: p) :: ps

/-- The literal separator `"base64,"` used by the codec. -/
def SEP_B64 : List Char := "base64,".data

/-- Embedding of `extract_base64_from_data_url` (src/app/file_utils.py,
lines 22-46): raise `ValueError` on an empty string; if `'base64,' in
data_url` return `data_url.split('base64,')[1]`; else if `',' in
data_url` return `data_url.split(',')[-1]`; else return the string
unchanged. -/
def extract_base64_from_data_url (data_url : String) : Except PyErr String :=
  if data_url = "" then .error .valueError
  else if containsSub SEP_B64 data_url.data then
    .ok (String.mk ((pySplit SEP_B64 (data_url.data.length + 1) data_url.data).getD 1 []))
  else if containsSub [','] data_url.data then
    .ok (String.mk ((pySplit [','] (data_url.data.length + 1) data_url.data).getLastD []))
  else .ok data_url

/-! ### The marker regex `\[FILE_UPLOAD:(.+):([^:]+):([^\]]+)\]`

`re.findall(FILE_UPLOAD_MARKER_PATTERN, text)` is modelled by a
specialised backtracking matcher. A match at a position consists of the
literal `"[FILE_UPLOAD:"`, a greedy group `(.+)` (one or more characters,
none of them a newline — `.` does not match `'\n'`), a `':'`, a group
`([^:]+)` (one or more non-colon characters, newlines included), a `':'`,
a group `([^\]]+)` (one or more non-`]` characters) and a final `']'`.

Backtracking order: the first group tries the longest candidate first
(`tryA` counts down). The second and third groups are negated character
classes followed by the very character they exclude (or `]`), so their
greedy choice is forced: only the maximal run can be followed by the
required delimiter. Scanning (`scanAux`) is left to right, resuming after
the end of each match, exactly as `re.findall` does. -/

/-- One regex match: the three capture groups of the marker pattern,
named as the source names them (`match[0]`, `match[1]`, `match[2]`). -/
structure MarkerMatch where
  data_url_part : String
  filename : String
  mime_type : String
deriving DecidableEq

/-- The literal head of the marker pattern. -/
def MARKER_HEAD : List Char := "[FILE_UPLOAD:".data

/-- Attempt the continuation of a match with the first capture group fixed
to `rest.take a`: require `':'`, then the forced-maximal `[^:]+` group,
`':'`, the forced-maximal `[^\]]+` group and the closing `']'`. Returns
the groups and the total length of the match. -/
def contA (rest : List Char) (a : Nat) : Option (MarkerMatch × Nat) :=
  match rest.drop a with
  | ':' :: r2 =>
    let bGrp := r2.takeWhile (· ≠ ':')
    if bGrp = [] then none
    else
      match r2.drop bGrp.length with
      | ':' :: r3 =>
        let cGrp := r3.takeWhile (· ≠ ']')
        if cGrp = [] then none
        else
          match r3.drop cGrp.length with
          | ']' :: _ =>
            some (⟨String.mk (rest.take a), String.mk bGrp, String.mk cGrp⟩,
                  MARKER_HEAD.length + a + 1 + bGrp.length + 1 + cGrp.length + 1)
          | _ => none
      | _ => none
  | _ => none

/-- Greedy backtracking for the `(.+)` group: try the candidate of length
`a` first, then shorter ones, never length zero. -/
def tryA (rest : List Char) : Nat → Option (MarkerMatch × Nat)
  | 0 => none
  | a + 1 =>
    match contA rest (a + 1) with
    | some r => some r
    | none => tryA rest a

/-- Attempt a match of the marker pattern anchored at the head of `s`. -/
def matchAt (s : List Char) : Option (MarkerMatch × Nat) :=
  if MARKER_HEAD.isPrefixOf s then
    let rest := s.drop MARKER_HEAD.length
    tryA rest (rest.takeWhile (· ≠ '\n')).length
  else none

/-- Left-to-right scan of `re.findall`: try each position in turn; after a
match, resume at the end of the match (matches never overlap). Fuel is
instantiated with the length of the scanned list, which suffices because
every step consumes at least one character. -/
def scanAux : Nat → List Char → List MarkerMatch
  | 0, _ => []
  | _, [] => []
  | fuel + 1, c :: cs =>
    match matchAt (c :: cs) with
    | some (m, len) => m :: scanAux fuel ((c :: cs).drop len)
    | none => scanAux fuel cs

/-- `re.findall(FILE_UPLOAD_MARKER_PATTERN, text)`. -/
def re_findall (text : String) : List MarkerMatch := scanAux text.data.length text.data

/-! ### `re.sub` with a fully escaped pattern and an f-string replacement

The source builds `escaped_pattern` by `re.escape`-ing each captured
group, so the pattern matches exactly the literal text of the original
marker; `re.sub` then replaces every non-overlapping occurrence, leftmost
first. The replacement string `f'[Uploaded file: {filename}]'` is a
`re.sub` *template*: backslash sequences inside it are interpreted
(`\t` becomes a tab, `\1` is an invalid group reference raising
`re.error`, `\g<0>` inserts the whole match, a backslash before a
non-letter is kept literally, an octal escape produces the coded
character). `parseTemplate` models CPython's template parser for a
pattern with zero capture groups, where group `0` is the whole match.

Exception classes matter here because the source catches
`(ValueError, IndexError)` but not `re.error`: for `\g<name>` CPython
first tries `int(name)` (whitespace-stripped, optionally signed, digits
with single underscores in between) — value `0` names group 0, a positive
value is an uncatchable `re.error` (invalid group reference); when `int`
fails, an identifier name raises `IndexError` (unknown group name), which
the source catches, and anything else is an `re.error` (bad character in
group name, missing `<`/`>`/name). All other bad escapes are `re.error`. -/

/-- Known escape characters of a `re.sub` replacement template. -/
def templEscape (c : Char) : Option Char :=
  match c with
  | 'a' => some (Char.ofNat 7)
  | 'b' => some (Char.ofNat 8)
  | 'f' => some (Char.ofNat 12)
  | 'n' => some (Char.ofNat 10)
  | 'r' => some (Char.ofNat 13)
  | 't' => some (Char.ofNat 9)
  | 'v' => some (Char.ofNat 11)
  | '\\' => some '\\'
  | _ => none

/-- Octal digit test. -/
def isOctDigit (c : Char) : Bool := '0' ≤ c && c ≤ '7'

/-- ASCII letter test (Python `ASCIILETTERS`). -/
def isAsciiLetter (c : Char) : Bool :=
  ('a' ≤ c && c ≤ 'z') || ('A' ≤ c && c ≤ 'Z')

/-- Value of a list of octal digits. -/
def octVal (ds : List Char) : Nat :=
  ds.foldl (fun v d => 8 * v + (d.toNat - '0'.toNat)) 0

/-- Whitespace stripped by Python `int()` around a numeric string
(modelled for the ASCII whitespace characters). -/
def isPySpace (c : Char) : Bool :=
  c = ' ' || c = '\t' || c = '\n' || c = '\r' || c = '\x0b' || c = '\x0c'

/-- Accumulating parser for the digit body of a Python `int()` literal:
decimal digits with single underscores strictly between digits. -/
def pyDigitsGo : Nat → List Char → Option Nat
  | acc, [] => some acc
  | acc, '_' :: d :: rest =>
    if d.isDigit then pyDigitsGo (10 * acc + (d.toNat - '0'.toNat)) rest else none
  | acc, c :: rest =>
    if c.isDigit then pyDigitsGo (10 * acc + (c.toNat - '0'.toNat)) rest else none

/-- Digit body of a Python `int()` literal; must start with a digit
(so a leading or trailing underscore fails). -/
def pyDigitsVal : List Char → Option Nat
  | [] => none
  | c :: rest =>
    if c.isDigit then pyDigitsGo (c.toNat - '0'.toNat) rest else none

/-- Python `int(name)` on a group name: strip surrounding whitespace,
allow one optional sign, then the digit body (ASCII digits; Python
additionally accepts non-ASCII decimal digits, which this model does
not). -/
def pyIntOfName (name : List Char) : Option Int :=
  let t := ((name.dropWhile isPySpace).reverse.dropWhile isPySpace).reverse
  match t with
  | '+' :: rest => (pyDigitsVal rest).map (fun v => (v : Int))
  | '-' :: rest => (pyDigitsVal rest).map (fun v => -(v : Int))
  | rest => (pyDigitsVal rest).map (fun v => (v : Int))

/-- ASCII approximation of Python `str.isidentifier`: an underscore or
letter followed by underscores, letters or digits (Python additionally
accepts non-ASCII XID characters, which this model does not). -/
def isAsciiIdent (name : List Char) : Bool :=
  match name with
  | [] => false
  | c :: rest =>
    (isAsciiLetter c || c = '_')
      && rest.all (fun d => isAsciiLetter d || d = '_' || d.isDigit)

/-- CPython replacement-template parsing, for a pattern with no capture
groups. `whole` is the text of group 0 (the entire match). Fuel is
instantiated with at least the length of the template, which suffices
because every step consumes at least one character. -/
def parseTemplate (whole : List Char) : Nat → List Char → Except PyErr (List Char)
  | _, [] => .ok []
  | 0, _ => .error .reError
  | fuel + 1, c :: rest =>
    if c ≠ '\\' then (c :: ·) <$> parseTemplate whole fuel rest
    else
    match rest with
    | [] => .error .reError
    | 'g' :: rest2 =>
      match rest2 with
      | '<' :: rest3 =>
        let name := rest3.takeWhile (· ≠ '>')
        match rest3.drop name.length with
        | '>' :: rest4 =>
          if name = [] then .error .reError
          else
            match pyIntOfName name with
            | some v =>
              if v = 0 then (whole ++ ·) <$> parseTemplate whole fuel rest4
              else .error .reError
              -- positive: invalid group reference; negative: CPython falls
              -- through to the identifier check, and a signed name is never
              -- an identifier, so the class is re.error either way
            | none =>
              if isAsciiIdent name then .error .indexError
              else .error .reError
        | _ => .error .reError
      | _ => .error .reError
    | d :: rest2 =>
      if d.isDigit then
        if d = '0' then
          let extra := (rest2.takeWhile isOctDigit).take 2
          (Char.ofNat (octVal ('0' :: extra)) :: ·) <$>
            parseTemplate whole fuel (rest2.drop extra.length)
        else
          match rest2 with
          | d2 :: d3 :: rest3 =>
            if isOctDigit d && isOctDigit d2 && isOctDigit d3 then
              if octVal [d, d2, d3] ≤ 255 then
                (Char.ofNat (octVal [d, d2, d3]) :: ·) <$> parseTemplate whole fuel rest3
              else .error .reError
            else .error .reError
          | _ => .error .reError
      else
        match templEscape d with
        | some e => (e :: ·) <$> parseTemplate whole fuel rest2
        | none =>
          if isAsciiLetter d then .error .reError
          else ('\\' :: d :: ·) <$> parseTemplate whole fuel rest2

/-- Replace every non-overlapping occurrence of the non-empty literal
`lit`, leftmost first, by `rep`. Fuel is instantiated with at least the
length of `text`. -/
def pySubAll (lit rep : List Char) : Nat → List Char → List Char
  | _, [] => []
  | 0, text => text
  | fuel + 1, c :: cs =>
    if lit.isPrefixOf (c :: cs) then
      rep ++ pySubAll lit rep fuel ((c :: cs).drop lit.length)
    else c :: pySubAll lit rep fuel cs

/-- The literal text of the original full marker, as reconstructed by the
source from the escaped capture groups. -/
def mkMarkerLiteral (m : MarkerMatch) : String :=
  "[FILE_UPLOAD:" ++ m.data_url_part ++ ":" ++ m.filename ++ ":" ++ m.mime_type ++ "]"

/-- Embedding of `re.sub(escaped_pattern, f'[Uploaded file: {filename}]',
clean_query)` (src/app/file_utils.py, lines 85-95): parse the replacement
template (raising `re.error` on a bad escape), then replace every
occurrence of the reconstructed marker literal. -/
def re_sub (m : MarkerMatch) (clean_query : String) : Except PyErr String :=
  let lit := (mkMarkerLiteral m).data
  let rep := ("[Uploaded file: " ++ m.filename ++ "]").data
  match parseTemplate lit (rep.length + 1) rep with
  | .error e => .error e
  | .ok t => .ok (String.mk (pySubAll lit t clean_query.data.length clean_query.data))

/-! ### `parse_file_upload_markers`, `validate_file_upload`, `normalize_file_uploads` -/

/-- One iteration of the `for match in matches` loop of
`parse_file_upload_markers` (src/app/file_utils.py, lines 64-98), acting
on the state `(clean_query, file_uploads)`. A `ValueError`/`IndexError`
raised inside the `try` block is caught and the iteration skipped
(`continue`); an empty or oversized decoded payload is skipped likewise;
otherwise the upload dict is appended and the marker literal replaced in
the query text. `re.error` raised by `re.sub` is not caught and
propagates; a caught exception raised by `re.sub` after the append — the
`IndexError` for an unknown group name such as a filename containing
`\g<a>` — leaves the already-appended upload in place and the query text
unchanged. -/
def processMatch (st : String × List FileUpload) (m : MarkerMatch) :
    Except PyErr (String × List FileUpload) :=
  match extract_base64_from_data_url m.data_url_part with
  | .error .valueError => .ok st
  | .error .indexError => .ok st
  | .error .reError => .error .reError
  | .ok base64_data =>
    if base64_data = "" then .ok st
    else if base64_data.length > MAX_FILE_SIZE_BASE64 then .ok st
    else
      let file_uploads := st.2 ++ [⟨some base64_data, some m.filename, some m.mime_type⟩]
      match re_sub m st.1 with
      | .error .reError => .error .reError
      | .error _ => .ok (st.1, file_uploads)
      | .ok clean => .ok (clean, file_uploads)

/-- The `for match in matches` loop, folded over the match list. -/
def parseLoop (st : String × List FileUpload) :
    List MarkerMatch → Except PyErr (String × List FileUpload)
  | [] => .ok st
  | m :: ms =>
    match processMatch st m with
    | .error e => .error e
    | .ok st2 => parseLoop st2 ms

/-- Embedding of `parse_file_upload_markers` (src/app/file_utils.py,
lines 49-100): find all regex matches, then run the extraction loop
starting from the original text and an empty upload list. -/
def parse_file_upload_markers (query_text : String) :
    Except PyErr (String × List FileUpload) :=
  parseLoop (query_text, []) (re_findall query_text)

/-- Embedding of `validate_file_upload` (src/app/file_utils.py, lines
103-132): the three keys must be present, `base64_data` must be non-empty
and at most `MAX_FILE_SIZE_BASE64` characters long. The `isinstance`
check is vacuous in the typed model, and the MIME allow-list comparison
is a no-op (`pass`) that never affects the result. -/
def validate_file_upload (file_upload : FileUpload) : Bool :=
  if !(file_upload.base64_data.isSome && file_upload.filename.isSome
        && file_upload.mime_type.isSome) then false
  else
    let base64_data := file_upload.base64_data.getD ""
    if base64_data = "" then false
    else if base64_data.length > MAX_FILE_SIZE_BASE64 then false
    else true

/-- Embedding of `normalize_file_uploads` (src/app/file_utils.py, lines
135-162): `if structured_uploads:` is Python truthiness, so the
structured branch is taken exactly when the optional list is present and
non-empty; it keeps the entries passing the validator, in order, and
returns the query text untouched. Otherwise the marker path runs. -/
def normalize_file_uploads (structured_uploads : Option (List FileUpload))
    (query_text : String) : Except PyErr (String × List FileUpload) :=
  match structured_uploads with
  | some uploads =>
    if uploads = [] then parse_file_upload_markers query_text
    else .ok (query_text, uploads.filter validate_file_upload)
  | none => parse_file_upload_markers query_text

/-- Well-formedness of an upload dict as it appears in any output list:
all three keys present, non-empty `base64_data` within the size ceiling. -/
def goodUpload (u : FileUpload) : Prop :=
  u.base64_data.isSome = true ∧ u.filename.isSome = true ∧ u.mime_type.isSome = true
    ∧ u.base64_data.getD "" ≠ ""
    ∧ (u.base64_data.getD "").length ≤ MAX_FILE_SIZE_BASE64

/-! ### Sanity evaluations (each checked by kernel reduction) -/

example : extract_base64_from_data_url "data:text/plain;base64,aGk=" = .ok "aGk=" := by rfl

example : extract_base64_from_data_url "data:text/plain;base64,ABC,DEF" = .ok "ABC,DEF" := by rfl

example : extract_base64_from_data_url "base64,QUJDbase64,REVG" = .ok "QUJD" := by rfl

example : extract_base64_from_data_url "a,b,c" = .ok "c" := by rfl

example : extract_base64_from_data_url "plain" = .ok "plain" := by rfl

example : extract_base64_from_data_url "" = .error .valueError := by rfl

example : extract_base64_from_data_url "base64," = .ok "" := by rfl

example :
    re_findall "hello [FILE_UPLOAD:data:text/plain;base64,aGk=:a.txt:text/plain] world"
      = [⟨"data:text/plain;base64,aGk=", "a.txt", "text/plain"⟩] := by rfl

example :
    re_findall "a [FILE_UPLOAD:QUJD:a.txt:text/plain] b [FILE_UPLOAD:REVG:b.txt:text/plain] c"
      = [⟨"QUJD:a.txt:text/plain] b [FILE_UPLOAD:REVG", "b.txt", "text/plain"⟩] := by rfl

example :
    re_findall "[FILE_UPLOAD:A:B:C]\n[FILE_UPLOAD:A:B:C]"
      = [⟨"A:B", "C]\n[FILE_UPLOAD", "A:B:C"⟩] := by rfl

example : re_findall "no markers here" = [] := by rfl

example : re_findall "[FILE_UPLOAD:QUJD:\\t:text/plain]"
      = [⟨"QUJD", "\\t", "text/plain"⟩] := by rfl

example :
    re_sub ⟨"data:text/plain;base64,aGk=", "a.txt", "text/plain"⟩
        "hello [FILE_UPLOAD:data:text/plain;base64,aGk=:a.txt:text/plain] world"
      = .ok "hello [Uploaded file: a.txt] world" := by rfl

example :
    re_sub ⟨"QUJD", "\\t", "text/plain"⟩ "[FILE_UPLOAD:QUJD:\\t:text/plain]"
      = .ok "[Uploaded file: \t]" := by rfl

example :
    re_sub ⟨"QUJD", "\\1", "text/plain"⟩ "[FILE_UPLOAD:QUJD:\\1:text/plain]"
      = .error .reError := by rfl

example :
    parse_file_upload_markers
        "hello [FILE_UPLOAD:data:text/plain;base64,aGk=:a.txt:text/plain] world"
      = .ok ("hello [Uploaded file: a.txt] world",
             [⟨some "aGk=", some "a.txt", some "text/plain"⟩]) := by rfl

example :
    parse_file_upload_markers
        "a [FILE_UPLOAD:QUJD:a.txt:text/plain] b [FILE_UPLOAD:REVG:b.txt:text/plain] c"
      = .ok ("a [Uploaded file: b.txt] c",
             [⟨some "QUJD:a.txt:text/plain] b [FILE_UPLOAD:REVG", some "b.txt",
               some "text/plain"⟩]) := by rfl

example :
    parse_file_upload_markers "skip [FILE_UPLOAD:base64,:empty.txt:text/plain] end"
      = .ok ("skip [FILE_UPLOAD:base64,:empty.txt:text/plain] end", []) := by rfl

example :
    parse_file_upload_markers "[FILE_UPLOAD:QUJD:\\t:text/plain]"
      = .ok ("[Uploaded file: \t]",
             [⟨some "QUJD", some "\\t", some "text/plain"⟩]) := by rfl

example :
    parse_file_upload_markers "[FILE_UPLOAD:QUJD:\\1:text/plain]"
      = .error .reError := by rfl

example :
    normalize_file_uploads (some [⟨some "aGk=", some "a.txt", some "text/plain"⟩])
        "keep [FILE_UPLOAD:QUJD:x.txt:text/plain] intact"
      = .ok ("keep [FILE_UPLOAD:QUJD:x.txt:text/plain] intact",
             [⟨some "aGk=", some "a.txt", some "text/plain"⟩]) := by rfl

example :
    normalize_file_uploads (some []) "see [FILE_UPLOAD:QUJD:x.txt:text/plain]"
      = .ok ("see [Uploaded file: x.txt]",
             [⟨some "QUJD", some "x.txt", some "text/plain"⟩]) := by rfl

example :
    validate_file_upload ⟨some "aGk=", some "a.txt", some "application/x-unknown"⟩
      = true := by rfl

example :
    validate_file_upload ⟨some "aGk=", none, some "text/plain"⟩ = false := by rfl

example : validate_file_upload ⟨some "", some "a", some "b"⟩ = false := by rfl

example :
    re_sub ⟨"QUJD", "\\g<a>", "text/plain"⟩ "t" = .error .indexError := by rfl

example :
    re_sub ⟨"QUJD", "\\g<5>", "text/plain"⟩ "t" = .error .reError := by rfl

example :
    parse_file_upload_markers "pre [FILE_UPLOAD:QUJD:\\g<a>:text/plain] post"
      = .ok ("pre [FILE_UPLOAD:QUJD:\\g<a>:text/plain] post",
             [⟨some "QUJD", some "\\g<a>", some "text/plain"⟩]) := by rfl

example :
    parse_file_upload_markers "[FILE_UPLOAD:QUJD:\\g<0>:text/plain] tail"
      = .ok ("[Uploaded file: [FILE_UPLOAD:QUJD:\\g<0>:text/plain]] tail",
             [⟨some "QUJD", some "\\g<0>", some "text/plain"⟩]) := by rfl

/-! ### Helper lemmas -/

theorem validate_implies_good (u : FileUpload) (h : validate_file_upload u = true) :
    goodUpload u := by
  obtain ⟨b, f, m⟩ := u
  cases b <;> cases f <;> cases m <;>
    simp_all [validate_file_upload, goodUpload]

theorem normalize_structured_eq (uploads : List FileUpload) (query_text : String)
    (h : uploads ≠ []) :
    normalize_file_uploads (some uploads) query_text
      = .ok (query_text, uploads.filter validate_file_upload) := by
  simp [normalize_file_uploads, h]

theorem pySplit_ne_nil (sep : List Char) (fuel : Nat) (l : List Char) :
    pySplit sep fuel l ≠ [] := by
  induction fuel generalizing l with
  | zero => cases l <;> simp [pySplit]
  | succ n ih =>
    cases l with
    | nil => simp [pySplit]
    | cons c cs =>
      simp only [pySplit]
      split
      · simp
      · cases hx : pySplit sep n cs <;> simp [hx]

theorem pySplit_getD_zero (sep : List Char) (fuel : Nat) (l : List Char)
    (hl : l.length ≤ fuel) :
    (pySplit sep fuel l).getD 0 [] = upToFirstSub sep l := by
  induction fuel generalizing l with
  | zero =>
    have : l = [] := List.length_eq_zero.mp (Nat.le_zero.mp hl)
    subst this
    simp [pySplit, upToFirstSub]
  | succ n ih =>
    cases l with
    | nil => simp [pySplit, upToFirstSub]
    | cons c cs =>
      simp only [pySplit, upToFirstSub]
      split
      · simp
      · cases hx : pySplit sep n cs with
        | nil => exact absurd hx (pySplit_ne_nil sep n cs)
        | cons p ps =>
          have hih := ih cs (Nat.le_of_succ_le_succ (by simpa using hl))
          rw [hx] at hih
          simpa using hih

theorem pySplit_getD_one (sep : List Char) (hsep : sep ≠ []) (fuel : Nat) (l : List Char)
    (hl : l.length ≤ fuel) (hc : containsSub sep l = true) :
    (pySplit sep fuel l).getD 1 [] = upToFirstSub sep (afterFirstSub sep l) := by
  induction fuel generalizing l with
  | zero =>
    have : l = [] := List.length_eq_zero.mp (Nat.le_zero.mp hl)
    subst this
    simp [containsSub] at hc
  | succ n ih =>
    cases l with
    | nil => simp [containsSub] at hc
    | cons c cs =>
      simp only [pySplit, afterFirstSub]
      rcases hp : sep.isPrefixOf (c :: cs) with _ | _
      · rw [if_neg (by simp [hp])]
        rw [if_neg (by simp [hp])]
        have hc' : containsSub sep cs = true := by
          simpa [containsSub, hp] using hc
        cases hx : pySplit sep n cs with
        | nil => exact absurd hx (pySplit_ne_nil sep n cs)
        | cons p ps =>
          have hih := ih cs (Nat.le_of_succ_le_succ (by simpa using hl)) hc'
          rw [hx] at hih
          simpa using hih
      · rw [if_pos (by simp [hp])]
        rw [if_pos (by simp [hp])]
        have hlen : ((c :: cs).drop sep.length).length ≤ n := by
          have h1 : 1 ≤ sep.length := by
            cases sep with
            | nil => exact absurd rfl hsep
            | cons _ _ => simp
          have hl' : cs.length + 1 ≤ n + 1 := by simpa using hl
          simp only [List.length_drop, List.length_cons]
          omega
        have := pySplit_getD_zero sep n ((c :: cs).drop sep.length) hlen
        simpa using this

theorem processMatch_good (st st' : String × List FileUpload) (m : MarkerMatch)
    (h : processMatch st m = .ok st') (hg : ∀ u ∈ st.2, goodUpload u) :
    ∀ u ∈ st'.2, goodUpload u := by
  unfold processMatch at h
  split at h
  · cases h; exact hg
  · cases h; exact hg
  · simp at h
  · rename_i b hx
    by_cases hb : b = ""
    · rw [if_pos hb] at h
      cases h
      exact hg
    · rw [if_neg hb] at h
      by_cases hlen : b.length > MAX_FILE_SIZE_BASE64
      · rw [if_pos hlen] at h
        cases h
        exact hg
      · rw [if_neg hlen] at h
        have hnew : goodUpload ⟨some b, some m.filename, some m.mime_type⟩ := by
          refine ⟨rfl, rfl, rfl, by simpa using hb, by simpa using Nat.not_lt.mp hlen⟩
        have hlist : st'.2 = st.2 ++ [⟨some b, some m.filename, some m.mime_type⟩] := by
          split at h
          · simp at h
          · cases h; rfl
          · cases h; rfl
        rw [hlist]
        intro u hu
        rcases List.mem_append.mp hu with hu | hu
        · exact hg u hu
        · rw [List.mem_singleton.mp hu]
          exact hnew

theorem parseLoop_good (ms : List MarkerMatch) (st st' : String × List FileUpload)
    (h : parseLoop st ms = .ok st') (hg : ∀ u ∈ st.2, goodUpload u) :
    ∀ u ∈ st'.2, goodUpload u := by
  induction ms generalizing st with
  | nil =>
    simp only [parseLoop] at h
    cases h
    exact hg
  | cons m ms ih =>
    simp only [parseLoop] at h
    cases hx : processMatch st m with
    | error e => rw [hx] at h; cases h
    | ok st2 =>
      rw [hx] at h
      exact ih st2 h (processMatch_good st st2 m hx hg)

theorem parse_markers_good (query_text clean : String) (result : List FileUpload)
    (h : parse_file_upload_markers query_text = .ok (clean, result)) :
    ∀ u ∈ result, goodUpload u := by
  have := parseLoop_good (re_findall query_text) (query_text, []) (clean, result) h
    (by intro u hu; simp at hu)
  simpa using this

theorem parseTemplate_keeps_backslash_free (whole : List Char) (fuel : Nat)
    (l : List Char) (hl : l.length ≤ fuel) (h : ∀ c ∈ l, c ≠ '\\') :
    parseTemplate whole fuel l = .ok l := by
  induction fuel generalizing l with
  | zero =>
    have : l = [] := List.length_eq_zero.mp (Nat.le_zero.mp hl)
    subst this
    simp [parseTemplate]
  | succ n ih =>
    cases l with
    | nil => simp [parseTemplate]
    | cons c cs =>
      have hc : c ≠ '\\' := h c (List.mem_cons_self c cs)
      simp only [parseTemplate, if_pos hc]
      rw [ih cs (Nat.le_of_succ_le_succ (by simpa using hl))
        (fun d hd => h d (List.mem_cons_of_mem c hd))]
      rfl

/-! ### Claim theorems -/

/-- C1: with a provided non-empty `structured_uploads` list, `normalize_file_uploads`
returns the input text completely unchanged (even if it contains markers)
together with exactly the validator-passing subsequence of the structured
list, in the given order; marker extraction is never performed in this
branch. -/
theorem claim1_structured_branch (uploads : List FileUpload) (query_text : String)
    (h : uploads ≠ []) :
    normalize_file_uploads (some uploads) query_text
      = .ok (query_text, uploads.filter validate_file_upload) :=
  normalize_structured_eq uploads query_text h

theorem claim1_structured_branch_witness :
    ([(⟨some "aGk=", some "a.txt", some "text/plain"⟩ : FileUpload),
      ⟨none, some "b.txt", some "text/plain"⟩] ≠ []) ∧
    normalize_file_uploads
        (some [⟨some "aGk=", some "a.txt", some "text/plain"⟩,
               ⟨none, some "b.txt", some "text/plain"⟩])
        "keep [FILE_UPLOAD:QUJD:x.txt:text/plain] intact"
      = .ok ("keep [FILE_UPLOAD:QUJD:x.txt:text/plain] intact",
             [⟨some "aGk=", some "a.txt", some "text/plain"⟩]) :=
  ⟨by decide,
   claim1_structured_branch
     [⟨some "aGk=", some "a.txt", some "text/plain"⟩,
      ⟨none, some "b.txt", some "text/plain"⟩]
     "keep [FILE_UPLOAD:QUJD:x.txt:text/plain] intact" (by decide)⟩

/-- C6: any upload dict carrying all three keys, a non-empty `base64_data`
within the size ceiling passes `validate_file_upload`, whatever the
`mime_type` value is — an unsupported MIME type never invalidates. -/
theorem claim6_validator_ignores_mime (b f mt : String) (hb : b ≠ "")
    (hlen : b.length ≤ MAX_FILE_SIZE_BASE64) :
    validate_file_upload ⟨some b, some f, some mt⟩ = true := by
  simp [validate_file_upload, hb, Nat.not_lt.mpr hlen]

theorem claim6_validator_ignores_mime_witness :
    ("aGk=" ≠ "") ∧ ("aGk=".length ≤ MAX_FILE_SIZE_BASE64) ∧
    validate_file_upload ⟨some "aGk=", some "a.txt", some "application/x-unknown"⟩
      = true :=
  ⟨by decide, by decide,
   claim6_validator_ignores_mime "aGk=" "a.txt" "application/x-unknown"
     (by decide) (by decide)⟩

/-- C8: the codec raises `ValueError` exactly on the empty string; every
non-empty input produces an `ok` result (no base64-alphabet validation is
performed). -/
theorem claim8_codec_error_iff_empty (data_url : String) :
    (∃ e, extract_base64_from_data_url data_url = .error e) ↔ data_url = "" := by
  unfold extract_base64_from_data_url
  split_ifs with h1 h2 h3 <;> simp [h1]

/-- C9: normalization is idempotent on the structured branch — feeding the
filtered list back through `normalize_file_uploads` (when it is non-empty)
returns it unchanged. -/
theorem claim9_structured_idempotent (uploads : List FileUpload) (query_text : String)
    (kept : List FileUpload) (h0 : uploads ≠ [])
    (h1 : normalize_file_uploads (some uploads) query_text = .ok (query_text, kept))
    (h2 : kept ≠ []) :
    normalize_file_uploads (some kept) query_text = .ok (query_text, kept) := by
  have he := (normalize_structured_eq uploads query_text h0).symm.trans h1
  simp only [Except.ok.injEq, Prod.mk.injEq, true_and] at he
  rw [normalize_structured_eq kept query_text h2, ← he, List.filter_filter]
  simp

theorem claim9_structured_idempotent_witness :
    normalize_file_uploads (some [⟨some "aGk=", some "a.txt", some "text/plain"⟩]) "t"
      = .ok ("t", [⟨some "aGk=", some "a.txt", some "text/plain"⟩]) :=
  claim9_structured_idempotent
    [⟨some "aGk=", some "a.txt", some "text/plain"⟩, ⟨none, some "b", some "c"⟩] "t"
    [⟨some "aGk=", some "a.txt", some "text/plain"⟩]
    (by decide) (by rfl) (by decide)

/-- C10: on the structured branch every kept record is passed through
verbatim — the output list is a sublist of the input list (the very input
records, all fields unchanged; in particular a `base64_data` still
carrying a full data-URL prefix is returned with that prefix intact,
because the codec is never applied) and the text is returned unchanged. -/
theorem claim10_structured_verbatim (uploads : List FileUpload)
    (query_text clean : String) (kept : List FileUpload) (h0 : uploads ≠ [])
    (h1 : normalize_file_uploads (some uploads) query_text = .ok (clean, kept)) :
    kept.Sublist uploads ∧ clean = query_text := by
  have he := (normalize_structured_eq uploads query_text h0).symm.trans h1
  simp only [Except.ok.injEq, Prod.mk.injEq] at he
  obtain ⟨ht, hk⟩ := he
  subst ht
  rw [← hk]
  exact ⟨List.filter_sublist uploads, rfl⟩

theorem claim10_structured_verbatim_witness :
    List.Sublist
      [(⟨some "data:text/plain;base64,aGk=", some "a.txt", some "text/plain"⟩ : FileUpload)]
      [⟨some "data:text/plain;base64,aGk=", some "a.txt", some "text/plain"⟩]
    ∧ ("x" : String) = "x" :=
  claim10_structured_verbatim
    [⟨some "data:text/plain;base64,aGk=", some "a.txt", some "text/plain"⟩]
    "x" "x" [⟨some "data:text/plain;base64,aGk=", some "a.txt", some "text/plain"⟩]
    (by decide) (by rfl)

/-- C3 counterexample: for an input with two occurrences of `"base64,"`,
`split('base64,')[1]` yields only the segment between the first and the
second occurrence — not the entire suffix after the first occurrence that
the claim demands. -/
theorem claim3_counterexample :
    extract_base64_from_data_url "base64,QUJDbase64,REVG" = .ok "QUJD"
      ∧ "QUJD" ≠ "QUJDbase64,REVG" :=
  ⟨by rfl, by decide⟩

/-- C3 (amended): for every non-empty input containing `"base64,"`, the
codec returns the segment of the input strictly between the first
occurrence of `"base64,"` and the next occurrence (or the end of the
string when there is no further occurrence); this rule still takes
precedence over the comma-fallback rule. -/
theorem claim3_between_first_and_next (data_url : String) (h1 : data_url ≠ "")
    (h2 : containsSub SEP_B64 data_url.data = true) :
    extract_base64_from_data_url data_url
      = .ok (String.mk (upToFirstSub SEP_B64 (afterFirstSub SEP_B64 data_url.data))) := by
  unfold extract_base64_from_data_url
  rw [if_neg h1, if_pos h2]
  rw [pySplit_getD_one SEP_B64 (by decide) (data_url.data.length + 1) data_url.data
    (Nat.le_succ _) h2]

theorem claim3_between_first_and_next_witness :
    ("data:text/plain;base64,ABC,DEF" ≠ "")
    ∧ containsSub SEP_B64 ("data:text/plain;base64,ABC,DEF" : String).data = true
    ∧ extract_base64_from_data_url "data:text/plain;base64,ABC,DEF" = .ok "ABC,DEF" :=
  ⟨by decide, by decide,
   (claim3_between_first_and_next "data:text/plain;base64,ABC,DEF"
     (by decide) (by decide)).trans (by rfl)⟩

/-- C4: every upload dict in the output of `normalize_file_uploads` —
whether it came from the structured branch or from marker extraction —
has all three keys present, a non-empty `base64_data`, and a
`base64_data` of length at most `MAX_FILE_SIZE_BASE64`; no partial or
oversized record ever appears in the output. -/
theorem claim4_output_wellformed (structured_uploads : Option (List FileUpload))
    (query_text clean : String) (result : List FileUpload)
    (h : normalize_file_uploads structured_uploads query_text = .ok (clean, result)) :
    ∀ u ∈ result, goodUpload u := by
  cases structured_uploads with
  | none =>
    exact parse_markers_good query_text clean result h
  | some uploads =>
    by_cases hu : uploads = []
    · rw [hu] at h
      simp only [normalize_file_uploads, if_pos rfl] at h
      exact parse_markers_good query_text clean result h
    · rw [normalize_structured_eq uploads query_text hu] at h
      simp only [Except.ok.injEq, Prod.mk.injEq] at h
      intro u hmem
      rw [← h.2] at hmem
      exact validate_implies_good u (List.of_mem_filter hmem)

theorem claim4_output_wellformed_witness :
    goodUpload ⟨some "aGk=", some "a.txt", some "text/plain"⟩ :=
  claim4_output_wellformed (some [⟨some "aGk=", some "a.txt", some "text/plain"⟩])
    "t" "t" [⟨some "aGk=", some "a.txt", some "text/plain"⟩] (by rfl)
    ⟨some "aGk=", some "a.txt", some "text/plain"⟩ (List.mem_singleton.mpr rfl)

/-- C5: a loop iteration of the marker extractor whose match has an empty
decoded payload, an oversized decoded payload, or a codec error (the
caught `ValueError`/`IndexError`) leaves the state exactly unchanged: no
attachment is appended, no error escapes, and no placeholder substitution
touches the query text, so the raw marker literal stays in the cleaned
output. -/
theorem claim5_skipped_match_changes_nothing (st : String × List FileUpload)
    (m : MarkerMatch)
    (h : extract_base64_from_data_url m.data_url_part = .error .valueError
       ∨ extract_base64_from_data_url m.data_url_part = .error .indexError
       ∨ extract_base64_from_data_url m.data_url_part = .ok ""
       ∨ ∃ b, extract_base64_from_data_url m.data_url_part = .ok b
              ∧ b.length > MAX_FILE_SIZE_BASE64) :
    processMatch st m = .ok st := by
  unfold processMatch
  rcases h with h | h | h | ⟨b, h, hlen⟩
  · rw [h]
  · rw [h]
  · rw [h]
    simp
  · rw [h]
    by_cases hb : b = ""
    · simp [hb]
    · simp [hb, hlen]

theorem claim5_skipped_match_changes_nothing_witness :
    extract_base64_from_data_url "base64," = .ok ""
    ∧ processMatch ("skip [FILE_UPLOAD:base64,:empty.txt:text/plain] end", [])
        ⟨"base64,", "empty.txt", "text/plain"⟩
      = .ok ("skip [FILE_UPLOAD:base64,:empty.txt:text/plain] end", []) :=
  ⟨by rfl,
   claim5_skipped_match_changes_nothing
     ("skip [FILE_UPLOAD:base64,:empty.txt:text/plain] end", [])
     ⟨"base64,", "empty.txt", "text/plain"⟩ (Or.inr (Or.inr (Or.inl (by rfl))))⟩

/-- C2: evaluation of the extractor on a text holding two well-formed
markers with valid in-ceiling payloads. The greedy `(.+)` group makes the
single regex match span from the first marker's payload across to the
second marker, so `re.findall` returns one match — not two — and the
extractor produces one attachment whose `filename`/`mime_type` come from
the second marker, contradicting the claimed one-attachment-per-marker
behaviour. -/
theorem claim2_two_markers_merge :
    parse_file_upload_markers
        "a [FILE_UPLOAD:QUJD:a.txt:text/plain] b [FILE_UPLOAD:REVG:b.txt:text/plain] c"
      = .ok ("a [Uploaded file: b.txt] c",
             [⟨some "QUJD:a.txt:text/plain] b [FILE_UPLOAD:REVG", some "b.txt",
               some "text/plain"⟩])
    ∧ (re_findall
        "a [FILE_UPLOAD:QUJD:a.txt:text/plain] b [FILE_UPLOAD:REVG:b.txt:text/plain] c").length
        = 1 :=
  ⟨by rfl, by rfl⟩

/-- C7 counterexample: the replacement string is a `re.sub` template, so a
filename containing the two characters backslash-`t` is inserted as a TAB
character — the cleaned text is not the literal placeholder
`"[Uploaded file: <fileName>]"` the claim demands. -/
theorem claim7_counterexample :
    parse_file_upload_markers "[FILE_UPLOAD:QUJD:\\t:text/plain]"
      = .ok ("[Uploaded file: \t]", [⟨some "QUJD", some "\\t", some "text/plain"⟩])
    ∧ ("[Uploaded file: \t]" : String) ≠ "[Uploaded file: \\t]" :=
  ⟨by rfl, by decide⟩

/-- C7 (amended): for a kept match whose filename contains no backslash,
the substitution step replaces every occurrence of the exact reconstructed
marker literal in the current query text by the literal placeholder
`"[Uploaded file: <fileName>]"` (when the filename contains a backslash
the placeholder instead undergoes Python replacement-template escape
processing, as the counterexample shows). -/
theorem claim7_literal_replacement (m : MarkerMatch) (clean_query : String)
    (h : ∀ c ∈ m.filename.data, c ≠ '\\') :
    re_sub m clean_query
      = .ok (String.mk (pySubAll (mkMarkerLiteral m).data
          ("[Uploaded file: " ++ m.filename ++ "]").data
          clean_query.data.length clean_query.data)) := by
  unfold re_sub
  dsimp only
  rw [parseTemplate_keeps_backslash_free _ _ _ (Nat.le_succ _) ?hrep]
  case hrep =>
    intro c hc heq
    subst heq
    rw [String.data_append, String.data_append] at hc
    rcases List.mem_append.mp hc with hc | hc
    · rcases List.mem_append.mp hc with hc | hc
      · exact absurd hc (by decide)
      · exact h _ hc rfl
    · exact absurd hc (by decide)

theorem claim7_literal_replacement_witness :
    re_sub ⟨"data:text/plain;base64,aGk=", "a.txt", "text/plain"⟩
        "hello [FILE_UPLOAD:data:text/plain;base64,aGk=:a.txt:text/plain] world"
      = .ok "hello [Uploaded file: a.txt] world" :=
  (claim7_literal_replacement ⟨"data:text/plain;base64,aGk=", "a.txt", "text/plain"⟩
    "hello [FILE_UPLOAD:data:text/plain;base64,aGk=:a.txt:text/plain] world"
    (by decide)).trans (by rfl)
